import Mathlib

/-
  Verification development for the `ai_agent` repository.

  The repository is Python glue code over an external agent SDK.  The
  definitions below are a shallow embedding of the repository's own logic:
  pure Python functions become Lean functions, the plugin classes become a
  state type with explicit state-passing callback functions, and Python
  dictionaries become ordered association lists.  Python exceptions are
  modelled with `Except`.  Functions whose repeated-call behaviour is at
  issue take a phantom call index `(call : Nat)`; constancy across calls is
  the statement that the result does not depend on it.
-/

namespace AIAgent

/-- Model of a Python value as it appears in this repository's dictionaries:
strings, ints, float literals (represented exactly as rationals), booleans,
`None`, lists and (insertion-ordered) dicts. -/
inductive PyVal where
  | str (s : String)
  | int (n : Int)
  | float (q : ℚ)
  | bool (b : Bool)
  | pynone
  | list (xs : List PyVal)
  | dict (fields : List (String × PyVal))

/-- Dictionary lookup: first binding of the key, `Option.none` on non-dicts. -/
def PyVal.lookup : PyVal → String → Option PyVal
  | .dict fs, k => fs.lookup k
  | _, _ => Option.none

/-! ## src/agents/home_automation_agent/agent.py -/

/-- Embeds `list_smart_devices` (agent.py lines 29-89).  The body only logs
and returns this hardcoded literal; the phantom `_call` index records that
the result is the same on every call. -/
def list_smart_devices (_call : Nat) : List PyVal :=
  [ .dict [("id", .str "living_room_lights"), ("name", .str "Living Room Lights"),
      ("type", .str "lights"), ("brand", .str "Philips Hue"), ("status", .str "on"),
      ("brightness", .int 75), ("color", .str "warm_white"), ("room", .str "living_room")],
    .dict [("id", .str "bedroom_thermostat"), ("name", .str "Bedroom Thermostat"),
      ("type", .str "thermostat"), ("brand", .str "Nest"), ("status", .str "heating"),
      ("current_temp", .int 68), ("target_temp", .int 72), ("room", .str "bedroom")],
    .dict [("id", .str "front_door_lock"), ("name", .str "Front Door Smart Lock"),
      ("type", .str "lock"), ("brand", .str "August"), ("status", .str "locked"),
      ("battery_level", .int 85), ("room", .str "entrance")],
    .dict [("id", .str "kitchen_camera"), ("name", .str "Kitchen Security Camera"),
      ("type", .str "camera"), ("brand", .str "Ring"), ("status", .str "recording"),
      ("motion_detected", .bool false), ("room", .str "kitchen")],
    .dict [("id", .str "garage_door"), ("name", .str "Garage Door Opener"),
      ("type", .str "garage_door"), ("brand", .str "Chamberlain"), ("status", .str "closed"),
      ("room", .str "garage")] ]

/-- A Python exception, carrying its message. -/
structure PyErr where
  msg : String
deriving DecidableEq, Repr

/-- Embeds `create_automation_routine` (agent.py lines 147-178).  The
`datetime.now().isoformat()` timestamp is the explicit input `now`. -/
def create_automation_routine (name trigger actions_description now : String) : PyVal :=
  let routine : PyVal := .dict
    [("id", .str ("routine_" ++ (name.toLower.replace " " "_"))),
     ("name", .str name),
     ("trigger", .str trigger),
     ("actions_description", .str actions_description),
     ("created_at", .str now),
     ("enabled", .bool true),
     ("last_run", PyVal.pynone)]
  .dict [("success", .bool true),
         ("routine", routine),
         ("message", .str ("Automation routine \x27" ++ name ++ "\x27 created successfully"))]

/-- Embeds `get_energy_usage` (agent.py lines 181-215): logs and returns this
hardcoded literal. -/
def get_energy_usage (_call : Nat) : PyVal :=
  .dict [("current_usage_kw", .float (23/10)),
         ("daily_usage_kwh", .float (285/10)),
         ("monthly_usage_kwh", .int 847),
         ("cost_today", .float (342/100)),
         ("cost_month", .float (10164/100)),
         ("peak_hours", .list [.str "6:00 PM", .str "7:00 PM", .str "8:00 PM"]),
         ("device_breakdown", .dict
           [("HVAC", .dict [("usage_kwh", .float (152/10)), ("percentage", .float (533/10))]),
            ("Lighting", .dict [("usage_kwh", .float (38/10)), ("percentage", .float (133/10))]),
            ("Kitchen Appliances", .dict [("usage_kwh", .float (41/10)), ("percentage", .float (144/10))]),
            ("Entertainment", .dict [("usage_kwh", .float (29/10)), ("percentage", .float (102/10))]),
            ("Other", .dict [("usage_kwh", .float (25/10)), ("percentage", .float (88/10))])]),
         ("recommendations", .list
           [.str "Consider lowering thermostat by 2¬∞F during peak hours to save $12/month",
            .str "LED bulb upgrades could save $8/month on lighting costs",
            .str "Smart power strips could reduce phantom loads by 5-10%"])]

/-- Embeds `check_security_status` (agent.py lines 218-262): logs and returns
this hardcoded literal. -/
def check_security_status (_call : Nat) : PyVal :=
  .dict [("overall_status", .str "secure"),
         ("armed", .bool true),
         ("devices", .dict
           [("door_locks", .dict
              [("front_door", .dict [("status", .str "locked"), ("battery", .int 85)]),
               ("back_door", .dict [("status", .str "locked"), ("battery", .int 78)])]),
            ("cameras", .dict
              [("kitchen", .dict [("status", .str "recording"), ("motion", .bool false)]),
               ("front_yard", .dict [("status", .str "recording"), ("motion", .bool false)]),
               ("backyard", .dict [("status", .str "recording"), ("motion", .bool true),
                                   ("alert", .str "Cat detected")])]),
            ("sensors", .dict
              [("motion_living_room", .dict [("status", .str "clear")]),
               ("door_bedroom", .dict [("status", .str "closed")]),
               ("window_kitchen", .dict [("status", .str "closed")])])]),
         ("recent_activity", .list
           [.dict [("time", .str "2:30 PM"), ("event", .str "Front door unlocked (mobile app)")],
            .dict [("time", .str "2:28 PM"), ("event", .str "Motion detected - backyard camera")],
            .dict [("time", .str "1:45 PM"), ("event", .str "Kitchen window opened")]]),
         ("alerts", .list
           [.dict [("level", .str "info"), ("message", .str "All entry points secure")],
            .dict [("level", .str "low"), ("message", .str "Backyard motion - likely animal")]])]

/-- Embeds `get_weather_integration` (agent.py lines 265-305): logs and
returns this hardcoded literal. -/
def get_weather_integration (_call : Nat) : PyVal :=
  .dict [("current", .dict
           [("temperature", .int 45), ("humidity", .int 68),
            ("conditions", .str "partly_cloudy"), ("wind_speed", .int 8),
            ("uv_index", .int 3)]),
         ("forecast_24h", .dict
           [("high", .int 52), ("low", .int 38),
            ("precipitation_chance", .int 20), ("conditions", .str "sunny")]),
         ("automation_recommendations", .list
           [.str "Temperature dropping tonight - consider pre-heating home at 6 PM",
            .str "Low humidity - smart humidifiers can activate automatically",
            .str "UV index moderate - smart blinds can adjust for optimal lighting"]),
         ("energy_impact", .dict
           [("heating_hours_needed", .int 6), ("cooling_hours_needed", .int 0),
            ("natural_light_available", .str "good"),
            ("solar_generation_forecast", .str "moderate")])]

/-- One value of `CountInvocationPlugin.session_stats`: the per-session dict
with keys agent_calls, llm_requests, start_time. -/
structure SessionEntry where
  agent_calls : Int
  llm_requests : Int
  start_time : Option Int
deriving DecidableEq, Repr

/-- The mutable fields of `CountInvocationPlugin` (invocation_plugin.py
lines 19-29). -/
structure CountState where
  agent_count : Int
  tool_count : Int
  llm_request_count : Int
  session_stats : List (String × SessionEntry)
deriving DecidableEq, Repr

/-- `CountInvocationPlugin.__init__`: all counters zero, no session stats. -/
def CountState.init : CountState :=
  { agent_count := 0, tool_count := 0, llm_request_count := 0, session_stats := [] }

/-- Embeds `CountInvocationPlugin.before_agent_callback` (invocation_plugin.py
lines 32-55): increment `agent_count`, create the session entry if absent
(dict insertion appends), then increment its `agent_calls`. -/
def before_agent_callback (_agent_name sessionId : String) (timestamp : Option Int)
    (s : CountState) : CountState :=
  let s := { s with agent_count := s.agent_count + 1 }
  let stats :=
    if (s.session_stats.lookup sessionId).isSome then s.session_stats
    else s.session_stats ++
      [(sessionId, { agent_calls := 0, llm_requests := 0, start_time := timestamp })]
  let stats := stats.map (fun kv =>
    if kv.1 == sessionId then (kv.1, { kv.2 with agent_calls := kv.2.agent_calls + 1 })
    else kv)
  { s with session_stats := stats }

/-- Embeds `CountInvocationPlugin.before_model_callback` (invocation_plugin.py
lines 58-72): increment `llm_request_count`; bump the session entry's
`llm_requests` only when the session is already tracked. -/
def before_model_callback (sessionId : String) (s : CountState) : CountState :=
  let s := { s with llm_request_count := s.llm_request_count + 1 }
  let stats :=
    if (s.session_stats.lookup sessionId).isSome then
      s.session_stats.map (fun kv =>
        if kv.1 == sessionId then (kv.1, { kv.2 with llm_requests := kv.2.llm_requests + 1 })
        else kv)
    else s.session_stats
  { s with session_stats := stats }

/-- Embeds `CountInvocationPlugin.after_agent_callback` (invocation_plugin.py
lines 75-84): the body only logs, so the state is unchanged. -/
def after_agent_callback (_agent_name _sessionId : String) (s : CountState) : CountState :=
  s

/-- The dict returned by `CountInvocationPlugin.get_stats`
(invocation_plugin.py lines 86-94). -/
structure Stats where
  total_agent_count : Int
  total_llm_request_count : Int
  total_tool_count : Int
  session_stats : List (String × SessionEntry)
  active_sessions : Nat
deriving DecidableEq, Repr

/-- Embeds `CountInvocationPlugin.get_stats`: a pure read of the counters;
`active_sessions` is `len(self.session_stats)`. -/
def get_stats (s : CountState) : Stats :=
  { total_agent_count := s.agent_count,
    total_llm_request_count := s.llm_request_count,
    total_tool_count := s.tool_count,
    session_stats := s.session_stats,
    active_sessions := s.session_stats.length }

/-- Embeds `CountInvocationPlugin.reset_stats` (invocation_plugin.py lines
96-102): zero every counter and empty the session stats. -/
def reset_stats (_s : CountState) : CountState :=
  { agent_count := 0, tool_count := 0, llm_request_count := 0, session_stats := [] }

/-- One SDK-invoked interaction with a `CountInvocationPlugin` (no
`reset_stats`): the three async callbacks plus the pure `get_stats` read. -/
inductive PluginOp where
  | beforeAgent (agentName sessionId : String) (timestamp : Option Int)
  | beforeModel (sessionId : String)
  | afterAgent (agentName sessionId : String)
  | getStats

/-- State transition of a single plugin interaction; `get_stats` reads the
state without changing it. -/
def applyOp (s : CountState) : PluginOp → CountState
  | .beforeAgent a sid ts => before_agent_callback a sid ts s
  | .beforeModel sid => before_model_callback sid s
  | .afterAgent a sid => after_agent_callback a sid s
  | .getStats => s

/-- Run a sequence of plugin interactions from a state. -/
def runOps (s : CountState) (ops : List PluginOp) : CountState :=
  ops.foldl applyOp s

/-- Embeds `ResearchInvocationPlugin.__init__` extras (invocation_plugin.py
lines 109-114) on top of the inherited `CountState`. -/
structure ResearchState where
  base : CountState
  search_queries : Int
  paper_analyses : Int
  quality_checks : Int
deriving DecidableEq, Repr

/-- Python `str.lower()` (ASCII model, matching the agent names used
here). -/
def pyLower (s : String) : String :=
  String.mk (s.toList.map Char.toLower)

/-- Python `sub in s` substring containment. -/
def strContains (s sub : String) : Bool :=
  decide (List.IsInfix sub.toList s.toList)

/-- Embeds `ResearchInvocationPlugin.before_agent_callback`
(invocation_plugin.py lines 116-135): call the superclass callback, then
dispatch on the lowercased agent name: `"search" in name` bumps
`search_queries`, elif `"analysis" in name` bumps `paper_analyses`. -/
def research_before_agent_callback (agentName sessionId : String)
    (timestamp : Option Int) (r : ResearchState) : ResearchState :=
  let r := { r with base := before_agent_callback agentName sessionId timestamp r.base }
  let agent_name := pyLower agentName
  if strContains agent_name "search" then
    { r with search_queries := r.search_queries + 1 }
  else if strContains agent_name "analysis" then
    { r with paper_analyses := r.paper_analyses + 1 }
  else r

/-! ## src/evaluation_400_fix.py

The two helper scripts only call `print`; each is embedded as the list of
its `print` arguments (one list element per `print` call, `""` for a bare
`print()`), paired with the Python return value `None`.  They read and
write no program state, so they take only the phantom call index. -/

/-- `"c" * n` string repetition. -/
def repeatChar (c : Char) (n : Nat) : String :=
  String.mk (List.replicate n c)

/-- Python `enumerate(xs, i)`. -/
def enumFrom {α : Type} (i : Nat) : List α → List (Nat × α)
  | [] => []
  | x :: xs => (i, x) :: enumFrom (i + 1) xs

/-- Indentation for `json.dumps(..., indent=n)`. -/
def spaces (n : Nat) : String :=
  String.mk (List.replicate n ' ')

mutual
/-- `json.dumps(v, indent=2)` at current indent level `ind`, restricted to
the shapes the repository serializes (the dumped constant holds only
strings, lists and dicts; no escaping is needed for its characters, and no
float, int, bool or `None` reaches a `json.dumps` call in the source). -/
def jsonDump (ind : Nat) : PyVal → String
  | .str s => "\"" ++ s ++ "\""
  | .int n => toString n
  | .float q => toString q
  | .bool b => if b then "true" else "false"
  | .pynone => "null"
  | .list [] => "[]"
  | .list (x :: xs) =>
      "[\n" ++ String.intercalate ",\n" (jsonDumpItems (ind + 2) (x :: xs)) ++
        "\n" ++ spaces ind ++ "]"
  | .dict [] => "\x7b\x7d"
  | .dict (f :: fs) =>
      "\x7b\n" ++ String.intercalate ",\n" (jsonDumpFields (ind + 2) (f :: fs)) ++
        "\n" ++ spaces ind ++ "\x7d"

/-- List items of a dumped JSON array, each on its own indented line. -/
def jsonDumpItems (ind : Nat) : List PyVal → List String
  | [] => []
  | v :: vs => (spaces ind ++ jsonDump ind v) :: jsonDumpItems ind vs

/-- Key-value lines of a dumped JSON object. -/
def jsonDumpFields (ind : Nat) : List (String × PyVal) → List String
  | [] => []
  | (k, v) :: fs =>
      (spaces ind ++ "\"" ++ k ++ "\": " ++ jsonDump ind v) :: jsonDumpFields ind fs
end

/-- The constant `minimal_case` dict of `generate_minimal_eval_case`
(evaluation_400_fix.py lines 19-30). -/
def minimal_case : PyVal :=
  .dict [("name", .str "basic_test"),
         ("description", .str "Minimal test case"),
         ("eval_cases", .list
           [.dict [("name", .str "simple_query"),
                   ("input", .str "Hello"),
                   ("expected", .str "greeting"),
                   ("criteria", .str "Should respond with a greeting")]])]

/-- Embeds `generate_minimal_eval_case` (evaluation_400_fix.py lines
12-42): the sequence of printed strings and the `None` return value. -/
def generate_minimal_eval_case (_call : Nat) : List String × Option Unit :=
  (["🔍 MINIMAL WORKING EVALUATION CASE",
    repeatChar '=' 50,
    "Copy this EXACT format into ADK Web:",
    "",
    "EVALUATION SET JSON:",
    repeatChar '-' 30,
    jsonDump 0 minimal_case,
    "",
    "📋 COPY-PASTE INSTRUCTIONS:",
    "1. Go to ADK Web → Select Agent → Evaluation",
    "2. Click \x27Create New Evaluation Set\x27",
    "3. Paste the JSON above EXACTLY",
    "4. Save and try to run",
    ""], Option.none)

/-- One entry of the `mistakes` list in `check_common_mistakes`. -/
structure Mistake where
  issue : String
  wrong : String
  correct : String

/-- The constant `mistakes` list (evaluation_400_fix.py lines 49-70). -/
def common_mistakes : List Mistake :=
  [{ issue := "Missing quotes around field names",
     wrong := "\x7bname: \x27test\x27, input: \x27hello\x27\x7d",
     correct := "\x7b\"name\": \"test\", \"input\": \"hello\"\x7d" },
   { issue := "Using single quotes instead of double quotes",
     wrong := "\x7b\x27name\x27: \x27test\x27\x7d",
     correct := "\x7b\"name\": \"test\"\x7d" },
   { issue := "Missing required fields",
     wrong := "\x7b\"input\": \"hello\"\x7d",
     correct := "\x7b\"name\": \"test\", \"input\": \"hello\", \"expected\": \"response\", \"criteria\": \"should respond\"\x7d" },
   { issue := "Invalid evaluation set name with spaces",
     wrong := "\x7b\"name\": \"test case 1\"\x7d",
     correct := "\x7b\"name\": \"test_case_1\"\x7d" }]

/-- Embeds `check_common_mistakes` (evaluation_400_fix.py lines 44-76):
header prints followed by the enumerated mistake blocks, returning `None`. -/
def check_common_mistakes (_call : Nat) : List String × Option Unit :=
  (["❌ COMMON MISTAKES CAUSING 400 ERRORS",
    repeatChar '=' 50] ++
    List.flatten ((enumFrom 1 common_mistakes).map (fun p =>
      [toString p.1 ++ ". " ++ p.2.issue,
       "   ❌ Wrong: " ++ p.2.wrong,
       "   ✅ Correct: " ++ p.2.correct,
       ""])),
   Option.none)

/-! ## src/evaluation_test_suites.py -/

/-- One test case dict of an evaluation suite (keys id, name, input,
expected_keywords, criteria, expected_score).  The float `expected_score`
is only ever printed, so it is carried as the text Python prints for the
source literal. -/
structure TestCase where
  id : String
  name : String
  input : String
  expected_keywords : List String
  criteria : List String
  expected_score : String

/-- An evaluation suite dict (keys suite_name, description, agent_name,
test_cases). -/
structure EvalSuite where
  suite_name : String
  description : String
  agent_name : String
  test_cases : List TestCase

/-- `BASIC_AGENT_EVAL_SUITE` (evaluation_test_suites.py lines 18-109). -/
def BASIC_AGENT_EVAL_SUITE : EvalSuite :=
  { suite_name := "Basic Agent Search Capabilities",
    description := "Tests fundamental Google search and information retrieval",
    agent_name := "basic_agent",
    test_cases :=
      [{ id := "basic_001", name := "Simple Factual Query",
         input := "What is the capital of Japan?",
         expected_keywords := ["Tokyo", "capital", "Japan"],
         criteria := ["Response should clearly state Tokyo as the capital",
                      "Information should be accurate and up-to-date",
                      "Response should be concise and direct"],
         expected_score := "0.9" },
       { id := "basic_002", name := "Current Events Query",
         input := "Latest news about artificial intelligence in 2024",
         expected_keywords := ["AI", "artificial intelligence", "2024", "news", "recent"],
         criteria := ["Should find recent AI-related news",
                      "Information should be from 2024",
                      "Should provide specific examples or developments"],
         expected_score := "0.8" },
       { id := "basic_003", name := "Technical Definition",
         input := "What is machine learning?",
         expected_keywords := ["machine learning", "algorithms", "data", "AI", "training"],
         criteria := ["Should provide clear definition of ML",
                      "Should mention key concepts like algorithms and data",
                      "Should be understandable to general audience"],
         expected_score := "0.85" },
       { id := "basic_004", name := "Comparative Query",
         input := "Difference between Python and JavaScript programming languages",
         expected_keywords := ["Python", "JavaScript", "difference", "programming", "language"],
         criteria := ["Should compare both languages clearly",
                      "Should mention key differences in usage/features",
                      "Should be accurate and balanced"],
         expected_score := "0.8" },
       { id := "basic_005", name := "Complex Search Query",
         input := "Best practices for cloud security in enterprise environments",
         expected_keywords := ["cloud", "security", "enterprise", "best practices", "AWS", "Azure"],
         criteria := ["Should provide comprehensive security practices",
                      "Should be relevant to enterprise environments",
                      "Should include specific recommendations"],
         expected_score := "0.75" }] }

/-- `RESEARCH_AGENT_EVAL_SUITE` (evaluation_test_suites.py lines 115-219). -/
def RESEARCH_AGENT_EVAL_SUITE : EvalSuite :=
  { suite_name := "Research Agent Advanced Capabilities",
    description := "Tests advanced research, analysis, and multi-agent coordination",
    agent_name := "research_agent",
    test_cases :=
      [{ id := "research_001", name := "Academic Paper Search",
         input := "Find recent papers on transformer architecture improvements published in 2023-2024",
         expected_keywords := ["transformer", "architecture", "papers", "2023", "2024", "research"],
         criteria := ["Should find actual academic papers",
                      "Papers should be from specified time period",
                      "Should provide proper citations and sources",
                      "Should analyze key contributions"],
         expected_score := "0.9" },
       { id := "research_002", name := "Trend Analysis",
         input := "Analyze the current trends in quantum computing research and their potential impact",
         expected_keywords := ["quantum", "computing", "trends", "analysis", "impact", "research"],
         criteria := ["Should identify current trends accurately",
                      "Should provide analytical insights",
                      "Should discuss future implications",
                      "Should cite relevant sources"],
         expected_score := "0.85" },
       { id := "research_003", name := "Comparative Analysis",
         input := "Compare different approaches to energy-efficient AI algorithms and their trade-offs",
         expected_keywords := ["energy", "efficient", "AI", "algorithms", "compare", "trade-offs"],
         criteria := ["Should compare multiple approaches",
                      "Should discuss trade-offs clearly",
                      "Should be technically accurate",
                      "Should provide balanced analysis"],
         expected_score := "0.8" },
       { id := "research_004", name := "Multi-Agent Coordination Test",
         input := "Research the history of neural networks and analyze their evolution timeline",
         expected_keywords := ["neural networks", "history", "evolution", "timeline", "analysis"],
         criteria := ["Should demonstrate search agent finding sources",
                      "Should show analysis agent processing information",
                      "Should provide chronological timeline",
                      "Should synthesize information coherently"],
         expected_score := "0.9" },
       { id := "research_005", name := "Complex Research Task",
         input := "Investigate the relationship between large language models and computational sustainability",
         expected_keywords := ["LLM", "language models", "sustainability", "computational", "energy"],
         criteria := ["Should explore multiple aspects of the topic",
                      "Should find diverse, credible sources",
                      "Should provide comprehensive analysis",
                      "Should discuss environmental implications"],
         expected_score := "0.85" }] }

/-- `HOME_AUTOMATION_EVAL_SUITE` (evaluation_test_suites.py lines 225-329). -/
def HOME_AUTOMATION_EVAL_SUITE : EvalSuite :=
  { suite_name := "Home Automation Agent Smart Home Management",
    description := "Tests smart home device control, automation, and security features",
    agent_name := "home_automation_agent",
    test_cases :=
      [{ id := "home_001", name := "Basic Device Control",
         input := "Turn on the living room lights and set brightness to 75%",
         expected_keywords := ["living room", "lights", "on", "75%", "brightness"],
         criteria := ["Should identify specific device location",
                      "Should execute control command correctly",
                      "Should set precise brightness level",
                      "Should provide confirmation of action"],
         expected_score := "0.9" },
       { id := "home_002", name := "Multi-Device Scenario",
         input := "Set up a movie night scene: dim lights, close blinds, turn on TV",
         expected_keywords := ["movie", "scene", "dim", "lights", "blinds", "TV"],
         criteria := ["Should control multiple devices",
                      "Should coordinate actions properly",
                      "Should create appropriate ambiance",
                      "Should confirm all actions completed"],
         expected_score := "0.85" },
       { id := "home_003", name := "Automation Routine Creation",
         input := "Create a good morning routine that gradually turns on lights and starts coffee at 7 AM",
         expected_keywords := ["morning", "routine", "lights", "coffee", "7 AM", "gradual"],
         criteria := ["Should create scheduled automation",
                      "Should specify timing correctly",
                      "Should include multiple coordinated actions",
                      "Should save routine for future use"],
         expected_score := "0.9" },
       { id := "home_004", name := "Security Management",
         input := "Show me the security status and arm the alarm system for night mode",
         expected_keywords := ["security", "status", "alarm", "arm", "night mode"],
         criteria := ["Should display current security status",
                      "Should control alarm system properly",
                      "Should set appropriate night mode configuration",
                      "Should provide security confirmation"],
         expected_score := "0.85" },
       { id := "home_005", name := "Energy Optimization",
         input := "Analyze energy usage and suggest optimizations for reducing consumption",
         expected_keywords := ["energy", "usage", "analyze", "optimization", "reduce", "consumption"],
         criteria := ["Should provide energy usage data",
                      "Should identify high-consumption devices",
                      "Should suggest specific optimizations",
                      "Should quantify potential savings"],
         expected_score := "0.8" },
       { id := "home_006", name := "Complex Smart Home Scenario",
         input := "I\x27m leaving for vacation - secure the house and set energy-saving mode",
         expected_keywords := ["vacation", "secure", "house", "energy-saving", "away"],
         criteria := ["Should activate security features",
                      "Should set energy-saving configurations",
                      "Should handle extended absence scenario",
                      "Should provide comprehensive vacation setup"],
         expected_score := "0.9" }] }

/-- The `suites` dict of `export_eval_suite_for_adk_web`
(evaluation_test_suites.py lines 365-369). -/
def eval_suites : List (String × EvalSuite) :=
  [("basic", BASIC_AGENT_EVAL_SUITE),
   ("research", RESEARCH_AGENT_EVAL_SUITE),
   ("home", HOME_AUTOMATION_EVAL_SUITE)]

/-- The printed block for one test case in
`export_eval_suite_for_adk_web`'s loop (evaluation_test_suites.py lines
379-387); `print(f"\n🧪 ...")` keeps its leading newline. -/
def tcExportBlock (i : Nat) (tc : TestCase) : List String :=
  ["\n🧪 Test Case " ++ toString i ++ ": " ++ tc.name,
   "Input: " ++ tc.input,
   "Expected Keywords: " ++ String.intercalate ", " tc.expected_keywords,
   "Expected Score: " ++ tc.expected_score,
   "Criteria:"] ++
    tc.criteria.map (fun c => "  • " ++ c) ++
    [repeatChar '-' 40]

/-- Embeds `export_eval_suite_for_adk_web` (evaluation_test_suites.py lines
363-387): unknown suite names print a not-found message and return `None`;
known ones print the header and each enumerated test case, falling off the
end (also `None`). -/
def export_eval_suite_for_adk_web (suite_name : String) : List String × Option Unit :=
  match eval_suites.lookup suite_name with
  | Option.none =>
      (["❌ Suite \x27" ++ suite_name ++
          "\x27 not found. Available: [\x27basic\x27, \x27research\x27, \x27home\x27]"],
       Option.none)
  | some suite =>
      (["📤 Exporting " ++ suite.suite_name ++ " for ADK Web",
        repeatChar '=' 60] ++
        List.flatten ((enumFrom 1 suite.test_cases).map (fun p => tcExportBlock p.1 p.2)),
       Option.none)

/-! ## Exception handling (src/session.py, src/memory_mgmt.py,
src/agents/research_agent/agent.py)

The SDK calls themselves are external; their outcomes are the `Except`
inputs of the embeddings below, which capture exactly the `try`/`except`
structure the repository wraps around them. -/

/-- An SDK session as the repository observes it: its `id` and
`len(session.events)`. -/
structure SdkSession where
  sid : String
  events_len : Nat
deriving DecidableEq, Repr

/-- An SDK runner as the repository observes it: its app name and whether
the `plugins=[research_plugin]` argument was passed. -/
structure SdkRunner where
  app_name : String
  has_plugins : Bool
deriving DecidableEq, Repr

/-- Embeds the session-acquisition step of `run_session` (src/session.py
lines 40-47): `create_session` inside `try`, with a bare `except:` falling
back to `get_session`.  `createRes` and `getRes` are the outcomes of the
two SDK calls. -/
def run_session_acquire (createRes getRes : Except PyErr SdkSession) :
    Except PyErr SdkSession :=
  match createRes with
  | .ok session => .ok session
  | .error _ => getRes

/-- Embeds `auto_save_to_memory` (src/memory_mgmt.py lines 178-238).  The
reflective attribute search is modelled by its result `sessionId`
(`Option.none` when no session id was found); `getRes` and `addRes` are
the outcomes of the awaited `get_session` and `add_session_to_memory` SDK
calls.  The whole body sits in `try`/`except Exception` that prints the
error, so every path returns `None` and prints exactly one message. -/
def auto_save_to_memory (sessionId : Option String)
    (getRes : Except PyErr (Option SdkSession)) (addRes : Except PyErr Unit) :
    List String × Option Unit :=
  match sessionId with
  | Option.none =>
      (["[auto_save] ⚠️  Could not locate session_id in callback context"], Option.none)
  | some sid =>
    match getRes with
    | .error e =>
        (["[auto_save] ❌ Error saving to memory: " ++ e.msg], Option.none)
    | .ok Option.none =>
        (["[auto_save] ⚠️  Could not fetch session \x27" ++ sid ++ "\x27 from session service"],
         Option.none)
    | .ok (some session) =>
      match addRes with
      | .error e =>
          (["[auto_save] ❌ Error saving to memory: " ++ e.msg], Option.none)
      | .ok _ =>
          (["[auto_save] ✅ Saved session \x27" ++ sid ++ "\x27 to memory (with " ++
              toString session.events_len ++ " events)"], Option.none)

/-- Embeds `create_research_runner_with_plugin`
(src/agents/research_agent/agent.py lines 219-259): the plugin-enabled
`Runner(...)` construction inside `try`, with `except Exception` logging a
warning and constructing a basic runner without the plugin. -/
def create_research_runner_with_plugin
    (pluginRunnerRes basicRunnerRes : Except PyErr SdkRunner) :
    Except PyErr SdkRunner :=
  match pluginRunnerRes with
  | .ok runner => .ok runner
  | .error _ => basicRunnerRes

/-! Helper lemmas about the plugin state machine (shared by several
theorems below). -/

lemma before_agent_callback_agent_count (a sid : String) (ts : Option Int) (s : CountState) :
    (before_agent_callback a sid ts s).agent_count = s.agent_count + 1 := rfl

lemma applyOp_tool_count (s : CountState) (op : PluginOp) :
    (applyOp s op).tool_count = s.tool_count := by
  cases op <;> rfl

lemma applyOp_agent_count_le (s : CountState) (op : PluginOp) :
    s.agent_count ≤ (applyOp s op).agent_count := by
  cases op
  case beforeAgent a sid ts => exact le_of_lt (Int.lt_add_one_of_le (le_refl _))
  all_goals exact le_refl _

lemma applyOp_llm_count_le (s : CountState) (op : PluginOp) :
    s.llm_request_count ≤ (applyOp s op).llm_request_count := by
  cases op
  case beforeModel sid => exact le_of_lt (Int.lt_add_one_of_le (le_refl _))
  all_goals exact le_refl _

lemma runOps_tool_count (s : CountState) (ops : List PluginOp) :
    (runOps s ops).tool_count = s.tool_count := by
  induction ops generalizing s with
  | nil => rfl
  | cons op ops ih => exact (ih (applyOp s op)).trans (applyOp_tool_count s op)

lemma runOps_agent_count_le (s : CountState) (ops : List PluginOp) :
    s.agent_count ≤ (runOps s ops).agent_count := by
  induction ops generalizing s with
  | nil => exact le_refl _
  | cons op ops ih => exact le_trans (applyOp_agent_count_le s op) (ih (applyOp s op))

lemma runOps_llm_count_le (s : CountState) (ops : List PluginOp) :
    s.llm_request_count ≤ (runOps s ops).llm_request_count := by
  induction ops generalizing s with
  | nil => exact le_refl _
  | cons op ops ih => exact le_trans (applyOp_llm_count_le s op) (ih (applyOp s op))

lemma runOps_append (s : CountState) (xs ys : List PluginOp) :
    runOps s (xs ++ ys) = runOps (runOps s xs) ys :=
  List.foldl_append _ _ _ _

/-- Claim C3: `CountInvocationPlugin` is a simple counter over callback
hooks: `before_agent_callback` increases `agent_count` by exactly 1,
`before_model_callback` increases `llm_request_count` by exactly 1, and no
callback ever changes `tool_count`, which stays 0 from construction under
every callback sequence without `reset_stats`. -/
theorem C3_count_plugin_increments :
    (∀ (s : CountState) (a sid : String) (ts : Option Int),
        (before_agent_callback a sid ts s).agent_count = s.agent_count + 1 ∧
        (before_agent_callback a sid ts s).tool_count = s.tool_count) ∧
    (∀ (s : CountState) (sid : String),
        (before_model_callback sid s).llm_request_count = s.llm_request_count + 1 ∧
        (before_model_callback sid s).tool_count = s.tool_count) ∧
    (∀ (s : CountState) (a sid : String),
        (after_agent_callback a sid s).tool_count = s.tool_count) ∧
    CountState.init.tool_count = 0 ∧
    (∀ ops : List PluginOp, (runOps CountState.init ops).tool_count = 0) := by
  refine ⟨fun s a sid ts => ⟨rfl, rfl⟩, fun s sid => ⟨rfl, rfl⟩,
    fun s a sid => rfl, rfl, fun ops => ?_⟩
  exact runOps_tool_count CountState.init ops

/-- Claim C5: across every sequence of `before_agent_callback`,
`before_model_callback`, `after_agent_callback` and `get_stats` calls (no
`reset_stats`), the three counters are non-negative and never decrease, and
`get_stats` and `after_agent_callback` leave the whole state — counters and
session_stats entries — unchanged. -/
theorem C5_count_plugin_invariants :
    (∀ (s : CountState) (op : PluginOp),
        s.agent_count ≤ (applyOp s op).agent_count ∧
        s.tool_count ≤ (applyOp s op).tool_count ∧
        s.llm_request_count ≤ (applyOp s op).llm_request_count) ∧
    (∀ ops : List PluginOp,
        0 ≤ (runOps CountState.init ops).agent_count ∧
        0 ≤ (runOps CountState.init ops).tool_count ∧
        0 ≤ (runOps CountState.init ops).llm_request_count) ∧
    (∀ ops more : List PluginOp,
        (runOps CountState.init ops).agent_count
          ≤ (runOps CountState.init (ops ++ more)).agent_count ∧
        (runOps CountState.init ops).tool_count
          ≤ (runOps CountState.init (ops ++ more)).tool_count ∧
        (runOps CountState.init ops).llm_request_count
          ≤ (runOps CountState.init (ops ++ more)).llm_request_count) ∧
    (∀ (s : CountState) (a sid : String), after_agent_callback a sid s = s) ∧
    (∀ s : CountState, applyOp s PluginOp.getStats = s) := by
  refine ⟨fun s op => ⟨applyOp_agent_count_le s op, le_of_eq (applyOp_tool_count s op).symm,
      applyOp_llm_count_le s op⟩,
    fun ops => ⟨runOps_agent_count_le CountState.init ops,
      le_of_eq (runOps_tool_count CountState.init ops).symm,
      runOps_llm_count_le CountState.init ops⟩,
    fun ops more => ?_, fun s a sid => rfl, fun s => rfl⟩
  rw [runOps_append]
  exact ⟨runOps_agent_count_le _ more,
    le_of_eq (runOps_tool_count _ more).symm, runOps_llm_count_le _ more⟩

/-- Claim C6: `ResearchInvocationPlugin.before_agent_callback` dispatches on
the lowercased agent name: a name containing "search" bumps only
`search_queries`; a name without "search" but containing "analysis" bumps
only `paper_analyses`; a name containing both bumps only `search_queries`;
and `agent_count` increases by 1 in every case. -/
theorem C6_research_dispatch (r : ResearchState) (name sid : String) (ts : Option Int) :
    (strContains (pyLower name) "search" = true →
        (research_before_agent_callback name sid ts r).search_queries
          = r.search_queries + 1 ∧
        (research_before_agent_callback name sid ts r).paper_analyses
          = r.paper_analyses) ∧
    (strContains (pyLower name) "search" = false →
     strContains (pyLower name) "analysis" = true →
        (research_before_agent_callback name sid ts r).paper_analyses
          = r.paper_analyses + 1 ∧
        (research_before_agent_callback name sid ts r).search_queries
          = r.search_queries) ∧
    (strContains (pyLower name) "search" = true →
     strContains (pyLower name) "analysis" = true →
        (research_before_agent_callback name sid ts r).search_queries
          = r.search_queries + 1 ∧
        (research_before_agent_callback name sid ts r).paper_analyses
          = r.paper_analyses) ∧
    (research_before_agent_callback name sid ts r).base.agent_count
      = r.base.agent_count + 1 := by
  refine ⟨fun h => ?_, fun h1 h2 => ?_, fun h _ => ?_, ?_⟩
  · constructor <;> simp [research_before_agent_callback, h]
  · constructor <;> simp [research_before_agent_callback, h1, h2]
  · constructor <;> simp [research_before_agent_callback, h]
  · by_cases h1 : strContains (pyLower name) "search" <;>
      by_cases h2 : strContains (pyLower name) "analysis" <;>
      simp [research_before_agent_callback, h1, h2,
        before_agent_callback_agent_count]

/-- Witness for C6: a search-named agent bumps only `search_queries`, an
analysis-named agent bumps only `paper_analyses`, at concrete inputs. -/
theorem C6_research_dispatch_witness :
    ((research_before_agent_callback "research_search_agent" "s1" Option.none
        ⟨CountState.init, 0, 0, 0⟩).search_queries = 0 + 1 ∧
     (research_before_agent_callback "research_search_agent" "s1" Option.none
        ⟨CountState.init, 0, 0, 0⟩).paper_analyses = 0) ∧
    ((research_before_agent_callback "paper_analysis_agent" "s1" Option.none
        ⟨CountState.init, 0, 0, 0⟩).paper_analyses = 0 + 1 ∧
     (research_before_agent_callback "paper_analysis_agent" "s1" Option.none
        ⟨CountState.init, 0, 0, 0⟩).search_queries = 0) := by
  exact ⟨(C6_research_dispatch ⟨CountState.init, 0, 0, 0⟩
            "research_search_agent" "s1" Option.none).1 (by decide),
         (C6_research_dispatch ⟨CountState.init, 0, 0, 0⟩
            "paper_analysis_agent" "s1" Option.none).2.1 (by decide) (by decide)⟩

/-- Claim C10: `reset_stats` followed by `get_stats` yields all-zero
statistics with empty `session_stats` and zero `active_sessions`, and
`reset_stats` is idempotent. -/
theorem C10_reset_stats (s : CountState) :
    get_stats (reset_stats s) =
      { total_agent_count := 0, total_llm_request_count := 0, total_tool_count := 0,
        session_stats := [], active_sessions := 0 } ∧
    reset_stats (reset_stats s) = reset_stats s :=
  ⟨rfl, rfl⟩

/-- Claim C1: the simulated smart-home lookup functions are constant: every
call to `list_smart_devices` returns the same hardcoded list of exactly five
devices with ids living_room_lights, bedroom_thermostat, front_door_lock,
kitchen_camera, garage_door, and `get_energy_usage`, `check_security_status`
and `get_weather_integration` each return the same fixed dictionary of
literals on every call, independent of prior calls or state. -/
theorem C1_hardcoded_lookups :
    (∀ m n : Nat, list_smart_devices m = list_smart_devices n) ∧
    (list_smart_devices 0).length = 5 ∧
    ((list_smart_devices 0).map (fun d => PyVal.lookup d "id") =
      [some (.str "living_room_lights"), some (.str "bedroom_thermostat"),
       some (.str "front_door_lock"), some (.str "kitchen_camera"),
       some (.str "garage_door")]) ∧
    (∀ m n : Nat, get_energy_usage m = get_energy_usage n) ∧
    (∀ m n : Nat, check_security_status m = check_security_status n) ∧
    (∀ m n : Nat, get_weather_integration m = get_weather_integration n) := by
  exact ⟨fun _ _ => rfl, rfl, rfl, fun _ _ => rfl, fun _ _ => rfl, fun _ _ => rfl⟩

/-- Claim C9: for every name, trigger and actions description,
`create_automation_routine` returns success `True` with a routine whose id is
`"routine_"` followed by the name lowercased with spaces replaced by
underscores, whose enabled field is `True` and whose last_run field is
`None`; it never returns a failure result. -/
theorem C9_create_automation_routine (name trigger ad now : String) :
    PyVal.lookup (create_automation_routine name trigger ad now) "success"
      = some (.bool true) ∧
    ∃ r, PyVal.lookup (create_automation_routine name trigger ad now) "routine" = some r ∧
      PyVal.lookup r "id" = some (.str ("routine_" ++ (name.toLower.replace " " "_"))) ∧
      PyVal.lookup r "enabled" = some (.bool true) ∧
      PyVal.lookup r "last_run" = some PyVal.pynone := by
  refine ⟨rfl, _, rfl, rfl, rfl, rfl⟩

lemma enumFrom_map_snd {α : Type} (i : Nat) (xs : List α) :
    (enumFrom i xs).map Prod.snd = xs := by
  induction xs generalizing i with
  | nil => rfl
  | cons x xs ih => simp [enumFrom, ih]

/-- Claim C7: the evaluation helper scripts only print:
`generate_minimal_eval_case` and `check_common_mistakes` return `None`,
touch no program state, and their output is the fixed `json.dumps` of the
constant `minimal_case` dict plus fixed instructional text, identical on
every call. -/
theorem C7_eval_helpers_only_print :
    (∀ m n : Nat, generate_minimal_eval_case m = generate_minimal_eval_case n) ∧
    (generate_minimal_eval_case 0).2 = Option.none ∧
    jsonDump 0 minimal_case ∈ (generate_minimal_eval_case 0).1 ∧
    (∀ m n : Nat, check_common_mistakes m = check_common_mistakes n) ∧
    (check_common_mistakes 0).2 = Option.none := by
  refine ⟨fun _ _ => rfl, rfl, ?_, fun _ _ => rfl, rfl⟩
  simp [generate_minimal_eval_case]

/-- Claim C8: `export_eval_suite_for_adk_web` never raises: every call
returns `None`; an unknown suite name prints only the not-found message,
and a known one prints the export header followed by each of the selected
suite's test cases in order (enumerated from 1). -/
theorem C8_export_eval_suite (suite_name : String) :
    (export_eval_suite_for_adk_web suite_name).2 = Option.none ∧
    (suite_name ∉ ["basic", "research", "home"] →
      (export_eval_suite_for_adk_web suite_name).1 =
        ["❌ Suite \x27" ++ suite_name ++
           "\x27 not found. Available: [\x27basic\x27, \x27research\x27, \x27home\x27]"]) ∧
    (suite_name ∈ ["basic", "research", "home"] →
      ∃ suite, eval_suites.lookup suite_name = some suite ∧
        (export_eval_suite_for_adk_web suite_name).1 =
          ["📤 Exporting " ++ suite.suite_name ++ " for ADK Web",
           repeatChar '=' 60] ++
            List.flatten ((enumFrom 1 suite.test_cases).map (fun p => tcExportBlock p.1 p.2)) ∧
        (enumFrom 1 suite.test_cases).map Prod.snd = suite.test_cases) := by
  refine ⟨?_, ?_, ?_⟩
  · rcases h : eval_suites.lookup suite_name with _ | suite <;>
      simp [export_eval_suite_for_adk_web, h]
  · intro h
    simp only [List.mem_cons, List.not_mem_nil, or_false, not_or] at h
    obtain ⟨h1, h2, h3⟩ := h
    simp [export_eval_suite_for_adk_web, eval_suites, List.lookup,
      beq_eq_false_iff_ne.mpr h1, beq_eq_false_iff_ne.mpr h2, beq_eq_false_iff_ne.mpr h3]
  · intro h
    simp only [List.mem_cons, List.not_mem_nil, or_false] at h
    rcases h with rfl | rfl | rfl
    · exact ⟨BASIC_AGENT_EVAL_SUITE, rfl, rfl, enumFrom_map_snd 1 _⟩
    · exact ⟨RESEARCH_AGENT_EVAL_SUITE, rfl, rfl, enumFrom_map_snd 1 _⟩
    · exact ⟨HOME_AUTOMATION_EVAL_SUITE, rfl, rfl, enumFrom_map_snd 1 _⟩

/-- Witness for C8: concrete calls — an unknown suite name yields only the
not-found message, and "home" yields the export header with all six test
cases, both returning `None`. -/
theorem C8_export_eval_suite_witness :
    (export_eval_suite_for_adk_web "homes").1 =
      ["❌ Suite \x27homes\x27 not found. Available: [\x27basic\x27, \x27research\x27, \x27home\x27]"] ∧
    (export_eval_suite_for_adk_web "home").2 = Option.none ∧
    ∃ suite, eval_suites.lookup "home" = some suite ∧
      (export_eval_suite_for_adk_web "home").1 =
        ["📤 Exporting " ++ suite.suite_name ++ " for ADK Web",
         repeatChar '=' 60] ++
          List.flatten ((enumFrom 1 suite.test_cases).map (fun p => tcExportBlock p.1 p.2)) ∧
      (enumFrom 1 suite.test_cases).map Prod.snd = suite.test_cases := by
  exact ⟨(C8_export_eval_suite "homes").2.1 (by decide),
         (C8_export_eval_suite "home").1,
         (C8_export_eval_suite "home").2.2 (by decide)⟩

/-- Counterexample to C2 at concrete inputs: when the wrapped SDK call
fails, none of the three functions lets the exception propagate —
`run_session` swallows the `create_session` failure and returns the
`get_session` fallback, `auto_save_to_memory` converts the failure into a
printed message and returns `None`, and
`create_research_runner_with_plugin` replaces the failure with a
plugin-less fallback runner. -/
theorem C2_counterexample :
    run_session_acquire (Except.error ⟨"quota exceeded"⟩)
        (Except.ok ⟨"stateful-agentic-session", 4⟩)
      = Except.ok ⟨"stateful-agentic-session", 4⟩ ∧
    run_session_acquire (Except.error ⟨"quota exceeded"⟩)
        (Except.ok ⟨"stateful-agentic-session", 4⟩)
      ≠ Except.error ⟨"quota exceeded"⟩ ∧
    auto_save_to_memory (some "demo_user_main_session")
        (Except.error ⟨"database is locked"⟩) (Except.ok ())
      = (["[auto_save] ❌ Error saving to memory: database is locked"], Option.none) ∧
    create_research_runner_with_plugin
        (Except.error ⟨"unexpected keyword argument plugins"⟩)
        (Except.ok ⟨"research_app", false⟩)
      = Except.ok ⟨"research_app", false⟩ := by
  refine ⟨rfl, ?_, rfl, rfl⟩
  simp [run_session_acquire]

/-- Amended C2: the three functions do not forward SDK exceptions; each
catches them itself.  `run_session` falls back from a failed
`create_session` to `get_session` (only the fallback's own outcome
surfaces); `auto_save_to_memory` returns `None` on every path, converting
a failure into a printed error message; and
`create_research_runner_with_plugin` falls back from a failed
plugin-enabled construction to the plugin-less runner construction. -/
theorem C2_amended_exception_handling :
    (∀ (e : PyErr) (g : Except PyErr SdkSession),
        run_session_acquire (Except.error e) g = g) ∧
    (∀ (s : SdkSession) (g : Except PyErr SdkSession),
        run_session_acquire (Except.ok s) g = Except.ok s) ∧
    (∀ sessionId getRes addRes,
        (auto_save_to_memory sessionId getRes addRes).2 = Option.none) ∧
    (∀ (sid : String) (e : PyErr) (addRes : Except PyErr Unit),
        auto_save_to_memory (some sid) (Except.error e) addRes
          = (["[auto_save] ❌ Error saving to memory: " ++ e.msg], Option.none)) ∧
    (∀ (e : PyErr) (b : Except PyErr SdkRunner),
        create_research_runner_with_plugin (Except.error e) b = b) ∧
    (∀ (r : SdkRunner) (b : Except PyErr SdkRunner),
        create_research_runner_with_plugin (Except.ok r) b = Except.ok r) := by
  refine ⟨fun e g => rfl, fun s g => rfl, ?_, fun sid e addRes => rfl,
    fun e b => rfl, fun r b => rfl⟩
  rintro (_ | sid) (⟨e⟩ | (_ | s)) (⟨e2⟩ | _) <;> rfl

end AIAgent
